import Mathlib

/-!
Verification of the configuration loader `config.py`.

The module reads environment variables, derives a base URL, computes log
paths, and ensures a log directory exists.  We embed it shallowly:

* the process environment is a map `String → Option String` (`none` = the
  variable is unset);
* the pure module-level assignments (`BINANCE_API_KEY`, `BINANCE_API_SECRET`,
  `TESTNET`, `FUTURES_BASE_URL`, `LOG_DIR`, `LOG_FILE`) become total Lean
  functions of the environment;
* the filesystem is a finite list of named entries (each a directory or a
  regular file, paths as component lists) together with a permission bit
  saying whether creation is allowed, and the side-effecting tail of the
  module (`os.path.exists` check followed by `os.makedirs`) becomes a
  function `FS → Except PyErr FS`.

`load_dotenv()` only pre-populates the environment (a missing `.env` file is
not an error); we take the environment after that step as the input, so it
is outside the model.
-/

namespace ConfigPy

/-- The process environment: `none` means the variable is unset. -/
def Env := String → Option String

/-- Python `os.getenv(name)`: the value, or `None` when unset. -/
def getenv (env : Env) (name : String) : Option String :=
  env name

/-- Python `os.getenv(name, default)`: the value, or `default` only when the
variable is entirely unset (an empty-string value is returned as is). -/
def getenvD (env : Env) (name default : String) : String :=
  (env name).getD default

/-- Line 6, `BINANCE_API_KEY = os.getenv("BINANCE_API_KEY")`. -/
def BINANCE_API_KEY (env : Env) : Option String :=
  getenv env "BINANCE_API_KEY"

/-- Line 7, `BINANCE_API_SECRET = os.getenv("BINANCE_API_SECRET")`. -/
def BINANCE_API_SECRET (env : Env) : Option String :=
  getenv env "BINANCE_API_SECRET"

/-- Line 8, `TESTNET = os.getenv("TESTNET", "True") == "True"`. -/
def TESTNET (env : Env) : Bool :=
  getenvD env "TESTNET" "True" == "True"

/-- Line 9, `FUTURES_BASE_URL = "https://testnet.binancefuture.com" if TESTNET else
"https://fapi.binance.com"`. -/
def FUTURES_BASE_URL (env : Env) : String :=
  if TESTNET env then "https://testnet.binancefuture.com"
  else "https://fapi.binance.com"

/-- Whether a path string begins with the POSIX separator. -/
def startsWithSlash (s : String) : Bool :=
  match s.data with
  | [] => false
  | c :: _ => c == '/'

/-- Whether a path string ends with the POSIX separator. -/
def endsWithSlash (s : String) : Bool :=
  match s.data.getLast? with
  | some c => c == '/'
  | none => false

/-- Python `os.path.join(a, b)` on POSIX for two string arguments: the second wins
if absolute; otherwise the separator is inserted unless `a` is empty or
already ends with it. -/
def posixJoin (a b : String) : String :=
  if startsWithSlash b then b
  else if a = "" || endsWithSlash a then a ++ b
  else a ++ "/" ++ b

/-- Line 12, `LOG_DIR = "logs"`. -/
def LOG_DIR : String := "logs"

/-- Line 13, `LOG_FILE = os.path.join(LOG_DIR, "bot.log")`. -/
def LOG_FILE : String := posixJoin LOG_DIR "bot.log"

/-- The record of module-level configuration values.  All fields are
computed by total functions of the environment. -/
structure Config where
  BINANCE_API_KEY : Option String
  BINANCE_API_SECRET : Option String
  TESTNET : Bool
  FUTURES_BASE_URL : String
  LOG_DIR : String
  LOG_FILE : String
deriving DecidableEq, Repr

/-- The configuration the module computes from an environment (the pure
part of config.py, lines 6-13). -/
def configOf (env : Env) : Config :=
  { BINANCE_API_KEY := BINANCE_API_KEY env
    BINANCE_API_SECRET := BINANCE_API_SECRET env
    TESTNET := TESTNET env
    FUTURES_BASE_URL := FUTURES_BASE_URL env
    LOG_DIR := LOG_DIR
    LOG_FILE := LOG_FILE }

/-- A filesystem entry is a directory or a regular file. -/
inductive EntryKind
  | dir
  | file
deriving DecidableEq, Repr

/-- A filesystem: named entries (paths as component lists) and a bit saying
whether this process may create new entries (permission). -/
structure FS where
  entries : List (List String × EntryKind)
  createAllowed : Bool
deriving DecidableEq, Repr

/-- Python `os.path.exists(p)`: some entry of any kind is named `p`. -/
def pathExistsB (fs : FS) (p : List String) : Bool :=
  fs.entries.any fun e => e.1 == p

/-- Python `os.path.isdir(p)`: a directory entry is named `p`. -/
def isdirB (fs : FS) (p : List String) : Bool :=
  fs.entries.any fun e => e.1 == p && e.2 == EntryKind.dir

/-- The subset of `OSError` the model distinguishes. -/
inductive PyErr
  | fileExists
  | permissionDenied
deriving DecidableEq, Repr

/-- Python `os.mkdir(p)`: fails with `FileExistsError` when an entry named `p`
already exists (of any kind), with `PermissionError` when creation is not
allowed; otherwise inserts a directory entry. -/
def mkdir (fs : FS) (p : List String) : Except PyErr FS :=
  if pathExistsB fs p then Except.error PyErr.fileExists
  else if fs.createAllowed then
    Except.ok { fs with entries := (p, EntryKind.dir) :: fs.entries }
  else Except.error PyErr.permissionDenied

/-- The final step of `os.makedirs`: `mkdir(name)` with `OSError` re-raised
unless `exist_ok` and the path is a directory. -/
def mkdirStep (fs : FS) (p : List String) (exist_ok : Bool) : Except PyErr FS :=
  match mkdir fs p with
  | Except.error e =>
      if exist_ok && isdirB fs p then Except.ok fs else Except.error e
  | Except.ok fs1 => Except.ok fs1

/-- Recursion worker for `makedirs`: the fuel is an upper bound on the
number of components, so with fuel `p.length` the zero-fuel case coincides
with the `p = []` case of the guard. -/
def makedirsAux : Nat → FS → List String → Bool → Except PyErr FS
  | 0, fs, p, exist_ok => mkdirStep fs p exist_ok
  | n + 1, fs, p, exist_ok =>
    if p.dropLast = [] ∨ pathExistsB fs p.dropLast = true then
      mkdirStep fs p exist_ok
    else
      match makedirsAux n fs p.dropLast exist_ok with
      | Except.error PyErr.fileExists => mkdirStep fs p exist_ok
      | Except.error e => Except.error e
      | Except.ok fs1 => mkdirStep fs1 p exist_ok

/-- Python `os.makedirs(p, exist_ok)`: when the parent path is non-empty and does
not exist, create it recursively first, then `mkdir` the full path.  In
this sequential model the recursive call never raises `FileExistsError`
(its own existence guard precedes it), so the `except FileExistsError:
pass` of the CPython source is the identity on the state here. -/
def makedirs (fs : FS) (p : List String) (exist_ok : Bool) : Except PyErr FS :=
  makedirsAux p.length fs p exist_ok

/-- Splits a character list at the POSIX separator; `acc` holds the
characters of the current component in reverse. -/
def splitSlashAux : List Char → List Char → List (List Char)
  | [], acc => [acc.reverse]
  | c :: rest, acc =>
    if c = '/' then acc.reverse :: splitSlashAux rest []
    else splitSlashAux rest (c :: acc)

/-- Path components of a path string: split at `/` and drop empty pieces
(the source only ever forms the relative paths `"logs"` and
`"logs/bot.log"`). -/
def pathComponents (s : String) : List String :=
  ((splitSlashAux s.data []).filter fun c => c ≠ []).map fun l => String.mk l

/-- The components of `LOG_DIR`. -/
def logsP : List String := pathComponents LOG_DIR

/-- The side-effecting tail of config.py (lines 16-17), with the filesystem
state at the `os.path.exists` check and at the `os.makedirs` call given
separately, so that an interleaved write by another process between the two
system calls can be expressed.  `fsCheck` is what the existence check
observes, `fsAct` is what the creation call acts on. -/
def ensureLogDirRaced (fsCheck fsAct : FS) : Except PyErr FS :=
  if pathExistsB fsCheck logsP then Except.ok fsAct
  else makedirs fsAct logsP false

/-- Sequential execution of lines 16-17: the same filesystem state is seen
by the check and the creation. -/
def ensureLogDir (fs : FS) : Except PyErr FS :=
  ensureLogDirRaced fs fs

/-- One sequential run of the whole module: compute the configuration
(total), then ensure the log directory (the only fallible step). -/
def loadConfig (env : Env) (fs : FS) : Except PyErr (Config × FS) :=
  match ensureLogDir fs with
  | Except.error e => Except.error e
  | Except.ok fs1 => Except.ok (configOf env, fs1)

/-- The empty environment: every variable unset. -/
def envEmpty : Env := fun _ => none

/-- An empty, writable filesystem. -/
def fsEmpty : FS := ⟨[], true⟩

/-- A writable filesystem whose only entry is a directory named `logs`. -/
def fsDirLogs : FS := ⟨[(["logs"], EntryKind.dir)], true⟩

/-- A writable filesystem whose only entry is a regular file named `logs`. -/
def fsFileLogs : FS := ⟨[(["logs"], EntryKind.file)], true⟩

/-- An environment with `TESTNET` set to the lowercase near-match `"true"`. -/
def envLowerTrue : Env := fun n => if n = "TESTNET" then some "true" else none

/-- An environment with both credential variables set. -/
def envKeys : Env := fun n =>
  if n = "BINANCE_API_KEY" then some "abc"
  else if n = "BINANCE_API_SECRET" then some "xyz"
  else none

/-- An environment where every variable is set to the empty string. -/
def envAllEmpty : Env := fun _ => some ""

/-- Reduction of `makedirs` at the single-component log path: there is no
parent to create, so it is the final `mkdir` step. -/
theorem makedirs_logsP (fs : FS) (ok : Bool) :
    makedirs fs logsP ok = mkdirStep fs logsP ok := rfl

/-- When some entry at the log path exists at the check, lines 16-17 skip
creation and the filesystem is unchanged. -/
theorem ensure_of_exists (fs : FS) (h : pathExistsB fs logsP = true) :
    ensureLogDir fs = Except.ok fs := by
  unfold ensureLogDir ensureLogDirRaced
  simp [h]

/-- When no entry at the log path exists, lines 16-17 create the directory
if permitted and raise `PermissionError` otherwise. -/
theorem ensure_not_exists (fs : FS) (h : pathExistsB fs logsP = false) :
    ensureLogDir fs =
      if fs.createAllowed then
        Except.ok ⟨(logsP, EntryKind.dir) :: fs.entries, fs.createAllowed⟩
      else Except.error PyErr.permissionDenied := by
  unfold ensureLogDir ensureLogDirRaced
  rw [makedirs_logsP]
  by_cases hc : fs.createAllowed <;> simp [h, hc, mkdirStep, mkdir]

/-- A freshly inserted log directory is seen by the existence check. -/
theorem exists_insert (es : List (List String × EntryKind)) (b : Bool) :
    pathExistsB ⟨(logsP, EntryKind.dir) :: es, b⟩ logsP = true := by
  simp [pathExistsB]

/-- A freshly inserted log directory is seen by the directory check. -/
theorem isdir_insert (es : List (List String × EntryKind)) (b : Bool) :
    isdirB ⟨(logsP, EntryKind.dir) :: es, b⟩ logsP = true := by
  simp [isdirB]

/-- A directory entry is in particular an existing entry. -/
theorem isdir_implies_exists (fs : FS) (p : List String)
    (h : isdirB fs p = true) : pathExistsB fs p = true := by
  simp only [isdirB, List.any_eq_true, Bool.and_eq_true, beq_iff_eq] at h
  obtain ⟨e, he, h1, _⟩ := h
  simp only [pathExistsB, List.any_eq_true, beq_iff_eq]
  exact ⟨e, he, h1⟩

/-- After lines 16-17 succeed, some entry at the log path exists. -/
theorem ensure_ok_exists (fs fs1 : FS) (h : ensureLogDir fs = Except.ok fs1) :
    pathExistsB fs1 logsP = true := by
  by_cases hx : pathExistsB fs logsP = true
  · rw [ensure_of_exists fs hx] at h
    simp only [Except.ok.injEq] at h
    exact h ▸ hx
  · rw [ensure_not_exists fs (by simpa using hx)] at h
    by_cases hc : fs.createAllowed
    · simp only [hc, if_true, Except.ok.injEq] at h
      exact h ▸ exists_insert fs.entries fs.createAllowed
    · simp [hc] at h

/-- The module run succeeds exactly when lines 16-17 succeed, and then
yields the pure configuration together with the new filesystem. -/
theorem load_ok_iff (env : Env) (fs : FS) (c : Config) (fs1 : FS) :
    loadConfig env fs = Except.ok (c, fs1) ↔
      (c = configOf env ∧ ensureLogDir fs = Except.ok fs1) := by
  unfold loadConfig
  cases h : ensureLogDir fs with
  | error e => simp
  | ok fs2 =>
    simp only [Except.ok.injEq, Prod.mk.injEq]
    constructor
    · rintro ⟨h1, h2⟩
      exact ⟨h1.symm, h2⟩
    · rintro ⟨h1, h2⟩
      exact ⟨h1.symm, h2⟩

/-- Counterexample to claim C2: the creation call does not tolerate a
directory that comes into existence between the existence check and the
creation.  With no entry at check time but the directory present at
creation time (the race the claim describes), `os.makedirs` — called
without `exist_ok` — raises `FileExistsError` instead of raising no
error. -/
theorem logdir_race_counterexample :
    ensureLogDirRaced fsEmpty fsDirLogs = Except.error PyErr.fileExists := rfl

/-- Claim C2 as amended: the loader checks whether any entry at the log
path exists and creates the directory only when none does; a pre-existing
entry at check time is tolerated with no error only because creation is
skipped, while a directory created concurrently between the check and the
create makes the creation call raise `FileExistsError`; when nothing
exists at either point and creation is permitted, the directory is
created. -/
theorem logdir_check_then_create (fsC fsA : FS) :
    (pathExistsB fsC logsP = true → ensureLogDirRaced fsC fsA = Except.ok fsA) ∧
    (pathExistsB fsC logsP = false → pathExistsB fsA logsP = true →
      ensureLogDirRaced fsC fsA = Except.error PyErr.fileExists) ∧
    (pathExistsB fsC logsP = false → pathExistsB fsA logsP = false →
      fsA.createAllowed = true →
      ensureLogDirRaced fsC fsA =
        Except.ok ⟨(logsP, EntryKind.dir) :: fsA.entries, fsA.createAllowed⟩) := by
  refine ⟨?_, ?_, ?_⟩
  · intro h
    unfold ensureLogDirRaced
    simp [h]
  · intro h1 h2
    unfold ensureLogDirRaced
    rw [if_neg (by simp [h1]), makedirs_logsP]
    simp [mkdirStep, mkdir, h2]
  · intro h1 h2 h3
    unfold ensureLogDirRaced
    rw [if_neg (by simp [h1]), makedirs_logsP]
    simp [mkdirStep, mkdir, h2, h3]

/-- Witness for the amended C2: with the directory already present at the
check, the run succeeds with the filesystem unchanged. -/
theorem logdir_check_then_create_witness :
    ensureLogDirRaced fsDirLogs fsDirLogs = Except.ok fsDirLogs :=
  (logdir_check_then_create fsDirLogs fsDirLogs).1 (by decide)

/-- Claim C3: directory creation is the only step of the module that can
fail, and its error propagates to the caller unchanged; whenever it
succeeds, the run yields the configuration computed by the total function
`configOf` of the environment — reading the credentials, parsing the flag,
selecting the endpoint and computing the log path cannot raise. -/
theorem only_dir_creation_fails (env : Env) (fs : FS) :
    (∀ e, loadConfig env fs = Except.error e ↔ ensureLogDir fs = Except.error e) ∧
    (∀ fs1, ensureLogDir fs = Except.ok fs1 →
      loadConfig env fs = Except.ok (configOf env, fs1)) := by
  constructor
  · intro e
    unfold loadConfig
    cases h : ensureLogDir fs <;> simp
  · intro fs1 h
    unfold loadConfig
    rw [h]

/-- Witness for C3: on an empty writable filesystem the run succeeds with
the configuration of the empty environment. -/
theorem only_dir_creation_fails_witness :
    loadConfig envEmpty fsEmpty = Except.ok (configOf envEmpty, fsDirLogs) :=
  (only_dir_creation_fails envEmpty fsEmpty).2 fsDirLogs (by rfl)

/-- Counterexample to claim C7: with a regular file named `logs` on the
initial filesystem, the loader completes without error, yet afterwards no
log directory exists — so the claim does not hold for every initial
filesystem state. -/
theorem logdir_after_load_counterexample :
    loadConfig envEmpty fsFileLogs = Except.ok (configOf envEmpty, fsFileLogs) ∧
    isdirB fsFileLogs logsP = false :=
  ⟨rfl, by decide⟩

/-- Claim C7 as amended: after the loader completes without error, some
entry at the log path exists; it is a directory whenever no entry at the
log path pre-existed (it is then freshly created) or the pre-existing
entry was itself a directory — but not when a non-directory entry named
`logs` pre-existed. -/
theorem logdir_after_load (env : Env) (fs fs1 : FS) (c : Config)
    (h : loadConfig env fs = Except.ok (c, fs1)) :
    pathExistsB fs1 logsP = true ∧
    (pathExistsB fs logsP = false → isdirB fs1 logsP = true) ∧
    (isdirB fs logsP = true → isdirB fs1 logsP = true) := by
  have h2 := ((load_ok_iff env fs c fs1).mp h).2
  refine ⟨ensure_ok_exists fs fs1 h2, ?_, ?_⟩
  · intro hne
    rw [ensure_not_exists fs hne] at h2
    by_cases hc : fs.createAllowed
    · simp only [hc, if_true, Except.ok.injEq] at h2
      exact h2 ▸ isdir_insert fs.entries fs.createAllowed
    · simp [hc] at h2
  · intro hd
    rw [ensure_of_exists fs (isdir_implies_exists fs logsP hd)] at h2
    simp only [Except.ok.injEq] at h2
    exact h2 ▸ hd

/-- Witness for the amended C7: running on the empty filesystem creates the
log directory. -/
theorem logdir_after_load_witness :
    pathExistsB fsDirLogs logsP = true ∧
    (pathExistsB fsEmpty logsP = false → isdirB fsDirLogs logsP = true) ∧
    (isdirB fsEmpty logsP = true → isdirB fsDirLogs logsP = true) :=
  logdir_after_load envEmpty fsEmpty fsDirLogs (configOf envEmpty) (by rfl)

/-- Claim C8: loading is idempotent — after a successful run, running the
module again on the resulting filesystem with the same environment raises
no error and yields the identical configuration and filesystem. -/
theorem load_idempotent (env : Env) (fs fs1 : FS) (c : Config)
    (h : loadConfig env fs = Except.ok (c, fs1)) :
    loadConfig env fs1 = Except.ok (c, fs1) := by
  have h2 := (load_ok_iff env fs c fs1).mp h
  exact (load_ok_iff env fs1 c fs1).mpr
    ⟨h2.1, ensure_of_exists fs1 (ensure_ok_exists fs fs1 h2.2)⟩

/-- Witness for C8: a first run on the empty filesystem creates the log
directory; the second run on the result succeeds identically. -/
theorem load_idempotent_witness :
    loadConfig envEmpty fsDirLogs = Except.ok (configOf envEmpty, fsDirLogs) :=
  load_idempotent envEmpty fsEmpty fsDirLogs (configOf envEmpty) (by rfl)

/-- Claim C9: the pre-creation existence check does not distinguish
directories from other entries — whenever any entry at the log path
exists, creation is skipped (the filesystem is returned unchanged) and the
loader completes without error; so if that entry is not a directory, no
log directory exists afterwards. -/
theorem exists_check_any_kind (env : Env) (fs : FS)
    (h : pathExistsB fs logsP = true) :
    loadConfig env fs = Except.ok (configOf env, fs) ∧
    (isdirB fs logsP = false →
      ∃ c fs1, loadConfig env fs = Except.ok (c, fs1) ∧
        isdirB fs1 logsP = false) := by
  have hl : loadConfig env fs = Except.ok (configOf env, fs) :=
    (load_ok_iff env fs (configOf env) fs).mpr ⟨rfl, ensure_of_exists fs h⟩
  exact ⟨hl, fun hd => ⟨configOf env, fs, hl, hd⟩⟩

/-- Witness for C9: with a regular file named `logs` present, the loader
completes without error and without touching the filesystem. -/
theorem exists_check_any_kind_witness :
    loadConfig envEmpty fsFileLogs = Except.ok (configOf envEmpty, fsFileLogs) :=
  (exists_check_any_kind envEmpty fsFileLogs (by decide)).1

/-- Claim C1: the test-network flag parse is an exact, case-sensitive string
comparison.  `TESTNET` is true exactly when the variable equals the literal
`"True"` or is unset, and false for every other value; `FUTURES_BASE_URL`
is the test-network endpoint exactly when the flag is true and the
production endpoint exactly when it is false, for every environment. -/
theorem testnet_flag_exact_match (env : Env) :
    (TESTNET env = true ↔ (env "TESTNET" = some "True" ∨ env "TESTNET" = none)) ∧
    (TESTNET env = true →
      FUTURES_BASE_URL env = "https://testnet.binancefuture.com") ∧
    (TESTNET env = false →
      FUTURES_BASE_URL env = "https://fapi.binance.com") := by
  refine ⟨?_, ?_, ?_⟩
  · unfold TESTNET getenvD
    cases h : env "TESTNET" with
    | none => simp [h]
    | some s => simp [h, beq_iff_eq]
  · intro h
    simp [FUTURES_BASE_URL, h]
  · intro h
    simp [FUTURES_BASE_URL, h]

/-- Witness for C1: with `TESTNET="true"` (a lowercase near-match) the flag
is false and the production endpoint is selected. -/
theorem testnet_flag_exact_match_witness :
    FUTURES_BASE_URL envLowerTrue = "https://fapi.binance.com" :=
  (testnet_flag_exact_match envLowerTrue).2.2 (by decide)

/-- Claim C4: for every environment, `FUTURES_BASE_URL` is exactly one of
the two literal endpoints, and in particular never empty and never made
from user-supplied text. -/
theorem base_url_two_values (env : Env) :
    (FUTURES_BASE_URL env = "https://testnet.binancefuture.com" ∨
      FUTURES_BASE_URL env = "https://fapi.binance.com") ∧
    FUTURES_BASE_URL env ≠ "" := by
  unfold FUTURES_BASE_URL
  by_cases h : TESTNET env = true
  · simp [h]
  · simp [h]

/-- Claim C5: unset credential variables yield absent fields (not empty
strings), and set ones are passed through to the configuration exactly as
given, unmodified. -/
theorem credentials_passthrough (env : Env) :
    (env "BINANCE_API_KEY" = none → (configOf env).BINANCE_API_KEY = none) ∧
    (env "BINANCE_API_SECRET" = none → (configOf env).BINANCE_API_SECRET = none) ∧
    (∀ s, env "BINANCE_API_KEY" = some s →
      (configOf env).BINANCE_API_KEY = some s) ∧
    (∀ s, env "BINANCE_API_SECRET" = some s →
      (configOf env).BINANCE_API_SECRET = some s) := by
  refine ⟨?_, ?_, ?_, ?_⟩ <;>
    simp only [configOf, BINANCE_API_KEY, BINANCE_API_SECRET, getenv] <;>
    intros <;> assumption

/-- Witness for C5: with `BINANCE_API_KEY="abc"` the field holds exactly
`"abc"`. -/
theorem credentials_passthrough_witness :
    (configOf envKeys).BINANCE_API_KEY = some "abc" :=
  (credentials_passthrough envKeys).2.2.1 "abc" (by decide)

/-- Claim C6: for every environment, `LOG_FILE` equals `LOG_DIR` joined
with the fixed filename `"bot.log"`, `LOG_DIR` is the literal `"logs"`,
and the joined path is the literal `"logs/bot.log"`. -/
theorem log_file_path_fixed (env : Env) :
    (configOf env).LOG_FILE = posixJoin (configOf env).LOG_DIR "bot.log" ∧
    (configOf env).LOG_DIR = "logs" ∧
    (configOf env).LOG_FILE = "logs/bot.log" := by
  refine ⟨rfl, rfl, ?_⟩
  show LOG_FILE = "logs/bot.log"
  decide

/-- Claim C10: defaults apply only to absent variables, not to empty-string
values: credentials set to `""` come through as `some ""`, and `TESTNET`
set to `""` does not use the default `"True"`, so the flag is false and the
production endpoint is selected. -/
theorem empty_string_not_default (env : Env) :
    (env "BINANCE_API_KEY" = some "" →
      (configOf env).BINANCE_API_KEY = some "") ∧
    (env "BINANCE_API_SECRET" = some "" →
      (configOf env).BINANCE_API_SECRET = some "") ∧
    (env "TESTNET" = some "" →
      (configOf env).TESTNET = false ∧
      (configOf env).FUTURES_BASE_URL = "https://fapi.binance.com") := by
  refine ⟨?_, ?_, ?_⟩
  · intro h
    simp [configOf, BINANCE_API_KEY, getenv, h]
  · intro h
    simp [configOf, BINANCE_API_SECRET, getenv, h]
  · intro h
    have hT : TESTNET env = false := by
      unfold TESTNET getenvD
      simp [h]
    exact ⟨hT, by simp [configOf, FUTURES_BASE_URL, hT]⟩

/-- Witness for C10: with every variable set to `""`, the flag is false and
the production endpoint is selected. -/
theorem empty_string_not_default_witness :
    (configOf envAllEmpty).TESTNET = false ∧
    (configOf envAllEmpty).FUTURES_BASE_URL = "https://fapi.binance.com" :=
  (empty_string_not_default envAllEmpty).2.2 (by rfl)

end ConfigPy
